import Mathlib

/-!
Verification development for `InvenTree/part/stocktake.py`.

The Python module implements two operations:
  * `perform_stocktake` — single-part stocktake (quantity + cost range);
  * `generate_stocktake_report` — filtered multi-part report with CSV dataset,
    optional report artifact, notification, and bulk persistence.

We shallow-embed the data model and both operations below.  Monetary amounts
are rationals together with a currency code; currency conversion is modelled
by an abstract rate table (`none` models a `MissingRate` exception).  Python
truthiness of `Money` objects (`bool(Money(a, c)) = (a != 0)`, `None` falsy)
is modelled by `moneyTruthy`, since the source tests `if entry.purchase_price:`
and uses `pricing.overall_min or pricing.overall_max`.
-/

namespace Stocktake

/-- A monetary value: amount together with its currency code
(mirrors `djmoney.money.Money`). -/
structure Money where
  amount : ℚ
  currency : String
deriving Repr, DecidableEq

/-- Python truthiness of an optional `Money` value: `None` is falsy and a
`Money` is truthy iff its amount is nonzero (moneyed defines `__bool__` via
`bool(self.amount)`). -/
def moneyTruthy : Option Money → Bool
  | none => false
  | some m => m.amount != 0

/-- Python `a or b` on optional `Money` values: returns `a` when truthy,
otherwise `b`. -/
def moneyOr (a b : Option Money) : Option Money :=
  if moneyTruthy a then a else b

/-- Aggregate pricing record of a part (`part.pricing` with its
`overall_min` / `overall_max` fields). -/
structure Pricing where
  overall_min : Option Money
  overall_max : Option Money
deriving Repr, DecidableEq

/-- A part category (`PartCategory`): primary key and name. -/
structure Category where
  id : Nat
  name : String
deriving Repr, DecidableEq

/-- A part (`Part`): primary key, optional category, display fields, and its
cached aggregate pricing. -/
structure Part where
  id : Nat
  full_name : String
  description : String
  category_id : Option Nat
  pricing : Pricing
deriving Repr, DecidableEq

/-- A stock location (`StockLocation`): primary key and the `external` flag. -/
structure StockLocation where
  id : Nat
  external : Bool
deriving Repr, DecidableEq

/-- A stock item (`StockItem`): owning part, quantity, optional purchase
price, the in-stock status, and an optional location. -/
structure StockItem where
  part_id : Nat
  quantity : ℚ
  purchase_price : Option Money
  in_stock : Bool
  location : Option Nat
deriving Repr, DecidableEq

/-- The relational data visible to the module: parts, categories, locations
and stock items, plus the hierarchy traversals (`get_descendants` without
self) for parts (variants), categories and locations, modelled as abstract
functions from a primary key to the list of strict-descendant keys. -/
structure DB where
  parts : List Part
  categories : List Category
  locations : List StockLocation
  items : List StockItem
  part_descendants : Nat → List Nat
  category_descendants : Nat → List Nat
  location_descendants : Nat → List Nat

/-- Run-wide context: the exchange-rate table (`none` = missing rate), the
base currency (`currency_code_default`), the `STOCKTAKE_EXCLUDE_EXTERNAL`
global setting, and the current ISO date string. -/
structure Ctx where
  rates : String → String → Option ℚ
  base_currency : String
  setting_exclude_external : Bool
  today : String

/-- Currency conversion (`convert_money(m, base)`): identity on the base
currency, otherwise look up a rate; `none` models a `MissingRate`
exception. -/
def convert_money (ctx : Ctx) (m : Money) : Option ℚ :=
  if m.currency == ctx.base_currency then some m.amount
  else (ctx.rates m.currency ctx.base_currency).map (fun r => r * m.amount)

/-- Whether a stock item's (optional) location is flagged external
(the Django lookup `location__external=True`; a null location never
matches). -/
def locationExternal (db : DB) : Option Nat → Bool
  | none => false
  | some l =>
    match db.locations.find? (fun loc => loc.id == l) with
    | some loc => loc.external
    | none => false

/-- Modelled from the spec: `target.stock_entries(in_stock=True,
include_variants=False)` is defined outside this file (on the `Part` model);
per the spec it returns the stock entries of the given part that are
currently in stock, excluding entries belonging to variant parts — i.e. the
part's own in-stock items. -/
def stock_entries (db : DB) (target : Part) : List StockItem :=
  db.items.filter (fun i => i.part_id == target.id && i.in_stock)

/-- The stock entries iterated by `perform_stocktake`: the part's in-stock
entries, minus entries at external locations when `exclude_external` is
set (`stock_entries.exclude(location__external=True)`). -/
def includedEntries (db : DB) (target : Part) (exclude_external : Bool) :
    List StockItem :=
  let entries := stock_entries db target
  if exclude_external then
    entries.filter (fun e => !(locationExternal db e.location))
  else entries

/-- The purchase-price pricing attempt for one entry: when the entry's
purchase price is truthy, try to convert it to the base currency and
multiply by the quantity (`convert_money(entry.purchase_price, base) *
entry.quantity`); `none` when the price is absent, zero (falsy), or the
conversion raises `MissingRate`. -/
def purchaseContribution (ctx : Ctx) (e : StockItem) : Option ℚ :=
  if moneyTruthy e.purchase_price then
    match e.purchase_price with
    | some m => (convert_money ctx m).map (fun v => v * e.quantity)
    | none => none
  else none

/-- One iteration of the cost-accumulation loop of `perform_stocktake`,
acting on the pair (total_cost_min, total_cost_max).  Mirrors the source:
the purchase-price branch adds the converted price to both accumulators;
otherwise the fallback uses `p_min = overall_min or overall_max` and
`p_max = overall_max or overall_min`, guarded by `if p_min or p_max:`, and
the two `+=` statements run in order inside one `try` block — so a
`MissingRate` on `p_max` still leaves the `p_min` contribution added. -/
def stocktakeStep (ctx : Ctx) (pricing : Pricing) (acc : ℚ × ℚ)
    (e : StockItem) : ℚ × ℚ :=
  match purchaseContribution ctx e with
  | some v => (acc.1 + v, acc.2 + v)
  | none =>
    let p_min := moneyOr pricing.overall_min pricing.overall_max
    let p_max := moneyOr pricing.overall_max pricing.overall_min
    if moneyTruthy p_min || moneyTruthy p_max then
      match p_min, p_max with
      | some mn, some mx =>
        match convert_money ctx mn with
        | none => acc
        | some vmin =>
          match convert_money ctx mx with
          | none => (acc.1 + vmin * e.quantity, acc.2)
          | some vmax =>
            (acc.1 + vmin * e.quantity, acc.2 + vmax * e.quantity)
      | _, _ => acc
    else acc

/-- The result record of a single-part stocktake (`PartStocktake` instance;
cost amounts are held in the base currency). -/
structure PartStocktake where
  part_id : Nat
  item_count : Nat
  quantity : ℚ
  cost_min : ℚ
  cost_max : ℚ
  note : String
  user : Option Nat
deriving Repr, DecidableEq

/-- One full iteration of the entry loop of `perform_stocktake`, over the
state (total_quantity, (total_cost_min, total_cost_max)). -/
def stocktakeLoopStep (ctx : Ctx) (pricing : Pricing) (a : ℚ × ℚ × ℚ)
    (e : StockItem) : ℚ × ℚ × ℚ :=
  (a.1 + e.quantity, stocktakeStep ctx pricing a.2 e)

/-- `perform_stocktake(target, user, note, commit, exclude_external=...)`:
gather the included stock entries, accumulate total quantity and the cost
range in one pass, and build the `PartStocktake` instance.  (`commit` only
controls persistence of the returned instance and is not modelled; the
pricing-validity refresh only refreshes the cached aggregate, which we take
as the final `target.pricing` value.) -/
def perform_stocktake (ctx : Ctx) (db : DB) (target : Part)
    (user : Option Nat) (note : String) (exclude_external : Bool) :
    PartStocktake :=
  let entries := includedEntries db target exclude_external
  let acc := entries.foldl (stocktakeLoopStep ctx target.pricing) (0, (0, 0))
  { part_id := target.id
    item_count := entries.length
    quantity := acc.1
    cost_min := acc.2.1
    cost_max := acc.2.2
    note := note
    user := user }

/-- The inclusion rule for stock entries as the spec words it: stock entries
of the part that are in stock, not belonging to variant parts, and — when
`exclude_external` is set — not located at an external location. -/
def includedSpec (db : DB) (target : Part) (exclude_external : Bool) :
    List StockItem :=
  db.items.filter (fun i =>
    i.part_id == target.id && i.in_stock &&
      (!exclude_external || !(locationExternal db i.location)))

/-- The per-entry cost contribution (min, max) described by the amended
spec: a nonzero purchase price that converts contributes its converted
value times quantity to both bounds; otherwise the aggregate bounds are
used with zero-or-absent coalescing (`moneyOr`), the min bound being
converted first — a conversion failure on the min bound contributes zero to
both, while a failure on the max bound alone still leaves the min
contribution in place. -/
def entryContribution (ctx : Ctx) (pricing : Pricing) (e : StockItem) :
    ℚ × ℚ :=
  match purchaseContribution ctx e with
  | some v => (v, v)
  | none =>
    let bmin := moneyOr pricing.overall_min pricing.overall_max
    let bmax := moneyOr pricing.overall_max pricing.overall_min
    if moneyTruthy bmin || moneyTruthy bmax then
      match bmin, bmax with
      | some mn, some mx =>
        match convert_money ctx mn with
        | none => (0, 0)
        | some vmin =>
          match convert_money ctx mx with
          | none => (vmin * e.quantity, 0)
          | some vmax => (vmin * e.quantity, vmax * e.quantity)
      | _, _ => (0, 0)
    else (0, 0)

/-- The keyword-argument bag passed to `generate_stocktake_report`.  The
model-instance filters (`user`, `part`, `category`, `location`) are typed
optional fields; the boolean options are kept as the literal (key, value)
pairs supplied by the caller, because the source looks them up by string
key (`kwargs.get(...)`) — faithfully modelling the lookup keys matters. -/
structure Kwargs where
  user : Option Nat
  part : Option Nat
  category : Option Nat
  location : Option Nat
  bool_opts : List (String × Bool)

/-- `kwargs.get(key, default)` restricted to the boolean options. -/
def Kwargs.getBool (kw : Kwargs) (key : String) (dflt : Bool) : Bool :=
  match kw.bool_opts.find? (fun kv => kv.1 == key) with
  | some kv => kv.2
  | none => dflt

/-- `get_descendants(include_self=True)` on a hierarchy: the node itself
followed by its strict descendants. -/
def descendantsWithSelf (desc : Nat → List Nat) (pk : Nat) : List Nat :=
  pk :: desc pk

/-- The exclude-external flag as `generate_stocktake_report` actually
resolves it: `kwargs.get('exclude_exernal', <STOCKTAKE_EXCLUDE_EXTERNAL>)`.
The lookup key is misspelled in the source (it lacks the first `t`), so a
caller-supplied `exclude_external` option is never found and the global
setting is always used. -/
def effectiveExcludeExternal (ctx : Ctx) (kw : Kwargs) : Bool :=
  kw.getBool "exclude_exernal" ctx.setting_exclude_external

/-- The part-set filtering pipeline of `generate_stocktake_report`: start
from all parts, then intersect with the optional part (variant subtree),
category (cascading) and location (parts owning stock items in the
location subtree, minus external ones when `exclude_external` is set)
filters. -/
def stocktakeParts (db : DB) (kw : Kwargs) (exclude_external : Bool) :
    List Part :=
  let parts0 := db.parts
  let parts1 :=
    match kw.part with
    | some pid =>
      let variants := descendantsWithSelf db.part_descendants pid
      parts0.filter (fun q => variants.contains q.id)
    | none => parts0
  let parts2 :=
    match kw.category with
    | some cid =>
      let cats := descendantsWithSelf db.category_descendants cid
      parts1.filter (fun q =>
        match q.category_id with
        | some c => cats.contains c
        | none => false)
    | none => parts1
  match kw.location with
  | some lid =>
    let locs := descendantsWithSelf db.location_descendants lid
    let items0 := db.items.filter (fun i =>
      match i.location with
      | some l => locs.contains l
      | none => false)
    let items := if exclude_external then
        items0.filter (fun i => !(locationExternal db i.location))
      else items0
    let unique_parts := (items.map (fun i => i.part_id)).dedup
    parts2.filter (fun q => unique_parts.contains q.id)
  | none => parts2

/-- One row of the report dataset (columns as appended in the source; cost
columns carry the normalized amounts in base currency). -/
structure Row where
  part_id : Nat
  part_name : String
  part_description : String
  category_id : Option Nat
  category_name : String
  item_count : Nat
  quantity : ℚ
  cost_min : ℚ
  cost_max : ℚ
deriving Repr, DecidableEq

/-- Build the dataset row for one part and its stocktake (`dataset.append([
p.pk, p.full_name, ..., stocktake.cost_max.amount])`; the category columns
are empty when the part has no category). -/
def rowOf (db : DB) (p : Part) (st : PartStocktake) : Row :=
  { part_id := p.id
    part_name := p.full_name
    part_description := p.description
    category_id := p.category_id
    category_name :=
      match p.category_id with
      | some c =>
        match db.categories.find? (fun cat => cat.id == c) with
        | some cat => cat.name
        | none => ""
      | none => ""
    item_count := st.item_count
    quantity := st.quantity
    cost_min := st.cost_min
    cost_max := st.cost_max }

/-- A persisted `PartStocktakeReport` artifact: generated CSV filename,
number of (nonzero) parts, and the requesting user. -/
structure ReportInstance where
  filename : String
  part_count : Nat
  user : Option Nat
deriving Repr, DecidableEq

/-- The observable outcome of one `generate_stocktake_report` run: the CSV
dataset rows, the created report artifact (if any), the users notified, and
the argument of the `bulk_create` call (instances, batch size) if it was
made.  The Python function itself always returns `None`. -/
structure ReportResult where
  rows : List Row
  report : Option ReportInstance
  notified : List Nat
  bulk_inserted : Option (List PartStocktake × Nat)
deriving Repr, DecidableEq

/-- One iteration of the per-part loop of `generate_stocktake_report`, over
the state (total_parts, stocktake_instances, dataset rows): run
`perform_stocktake(p, user, commit=False, exclude_external=...)`, skip the
part when the resulting quantity is zero, otherwise count it and extend the
instance list and the dataset. -/
def reportStep (ctx : Ctx) (db : DB) (user : Option Nat)
    (exclude_external : Bool) (a : Nat × List PartStocktake × List Row)
    (p : Part) : Nat × List PartStocktake × List Row :=
  let st := perform_stocktake ctx db p user "" exclude_external
  if st.quantity == 0 then a
  else (a.1 + 1, a.2.1 ++ [st], a.2.2 ++ [rowOf db p st])

/-- The per-part accumulation loop of `generate_stocktake_report`. -/
def reportAccum (ctx : Ctx) (db : DB) (user : Option Nat)
    (exclude_external : Bool) (ps : List Part) :
    Nat × List PartStocktake × List Row :=
  ps.foldl (reportStep ctx db user exclude_external) (0, [], [])

/-- `generate_stocktake_report(**kwargs)`.  Note the source resolves the
exclude-external option with `kwargs.get('exclude_exernal', <setting>)` —
the lookup key is misspelled in the source, and the embedding preserves
that spelling. -/
def generate_stocktake_report (ctx : Ctx) (db : DB) (kw : Kwargs) :
    ReportResult :=
  let exclude_external := effectiveExcludeExternal ctx kw
  let user := kw.user
  let gen_report := kw.getBool "generate_report" true
  let update_parts := kw.getBool "update_parts" true
  let parts := stocktakeParts db kw exclude_external
  if parts.length == 0 then
    { rows := [], report := none, notified := [], bulk_inserted := none }
  else
    let acc := reportAccum ctx db user exclude_external parts
    let total_parts := acc.1
    let filename := "InvenTree_Stocktake_" ++ ctx.today ++ ".csv"
    let report :=
      if gen_report then
        some { filename := filename, part_count := total_parts, user := user }
      else none
    let notified :=
      if gen_report then
        match user with
        | some u => [u]
        | none => []
      else []
    { rows := acc.2.2
      report := report
      notified := notified
      bulk_inserted :=
        if update_parts then some (acc.2.1, 500) else none }

/-- The location-filtered part set as the spec words it: the distinct parts
owning an in-stock item whose location lies in the given location's subtree
(the location itself included), external locations excluded when
requested. -/
def locationPartsSpec (db : DB) (lid : Nat) (exclude_external : Bool) :
    List Part :=
  let locs := descendantsWithSelf db.location_descendants lid
  db.parts.filter (fun p =>
    db.items.any (fun i =>
      i.part_id == p.id && i.in_stock &&
        (match i.location with
         | some l => locs.contains l
         | none => false) &&
        (!exclude_external || !(locationExternal db i.location))))

/-- The location-filtered part set as amended: parts owning any stock item
(in stock or not) whose location lies in the subtree, external locations
excluded when requested. -/
def locationPartsAmended (db : DB) (lid : Nat) (exclude_external : Bool) :
    List Part :=
  let locs := descendantsWithSelf db.location_descendants lid
  db.parts.filter (fun p =>
    db.items.any (fun i =>
      i.part_id == p.id &&
        (match i.location with
         | some l => locs.contains l
         | none => false) &&
        (!exclude_external || !(locationExternal db i.location))))

/-- The parts kept by the report loop together with their (uncommitted)
stocktakes: one pair per filtered part whose stocktake quantity is
nonzero. -/
def includedPairs (ctx : Ctx) (db : DB) (user : Option Nat)
    (exclude_external : Bool) (ps : List Part) :
    List (Part × PartStocktake) :=
  (ps.map (fun p => (p, perform_stocktake ctx db p user "" exclude_external))).filter
    (fun pr => !(pr.2.quantity == 0))

/-- Both aggregate pricing bounds, when present, are denominated in the base
currency (so their conversion cannot fail). -/
def boundsInBase (ctx : Ctx) (pr : Pricing) : Bool :=
  pr.overall_min.all (fun m => m.currency == ctx.base_currency) &&
    pr.overall_max.all (fun m => m.currency == ctx.base_currency)

/-- The aggregate pricing bounds are ordered whenever both are present and
nonzero (a zero bound is falsy and coalesced away by the source). -/
def boundsOrdered (pr : Pricing) : Bool :=
  match pr.overall_min, pr.overall_max with
  | some mn, some mx =>
    (mn.amount == 0) || (mx.amount == 0) || decide (mn.amount ≤ mx.amount)
  | _, _ => true

/-- Every stock item records a nonnegative quantity. -/
def quantitiesNonneg (db : DB) : Bool :=
  db.items.all (fun i => decide (0 ≤ i.quantity))

/-- A rate table with no registered exchange rate at all: every non-identity
conversion raises `MissingRate`. -/
def noRates : String → String → Option ℚ := fun _ _ => none

/-- Example run context: USD base currency, no exchange rates, the
exclude-external setting off. -/
def ctxUSD : Ctx :=
  { rates := noRates
    base_currency := "USD"
    setting_exclude_external := false
    today := "2024-01-01" }

/-- Example run context with the `STOCKTAKE_EXCLUDE_EXTERNAL` setting on. -/
def ctxUSDext : Ctx :=
  { ctxUSD with setting_exclude_external := true }

/-- Example part with aggregate pricing bounds of 5 USD and 7 USD. -/
def partZeroPP : Part :=
  { id := 1, full_name := "P1", description := "", category_id := none
    pricing := { overall_min := some (Money.mk 5 "USD")
                 overall_max := some (Money.mk 7 "USD") } }

/-- Example in-stock item of part 1 carrying a zero purchase price. -/
def itemZeroPP : StockItem :=
  { part_id := 1, quantity := 1, purchase_price := some (Money.mk 0 "USD")
    in_stock := true, location := none }

/-- Database holding part 1 with its single zero-purchase-price item. -/
def dbZeroPP : DB :=
  { parts := [partZeroPP], categories := [], locations := []
    items := [itemZeroPP]
    part_descendants := fun _ => []
    category_descendants := fun _ => []
    location_descendants := fun _ => [] }

/-- Example part whose aggregate bounds are 5 USD and 7 EUR (the EUR bound
cannot be converted under `noRates`). -/
def partMixedCur : Part :=
  { id := 1, full_name := "P1", description := "", category_id := none
    pricing := { overall_min := some (Money.mk 5 "USD")
                 overall_max := some (Money.mk 7 "EUR") } }

/-- Example in-stock item of part 1 with no purchase price. -/
def itemNoPP : StockItem :=
  { part_id := 1, quantity := 1, purchase_price := none
    in_stock := true, location := none }

/-- Database holding part 1 (mixed-currency bounds) with one priceless
item. -/
def dbMixedCur : DB :=
  { parts := [partMixedCur], categories := [], locations := []
    items := [itemNoPP]
    part_descendants := fun _ => []
    category_descendants := fun _ => []
    location_descendants := fun _ => [] }

/-- Example part with no category and no aggregate pricing. -/
def partPlain : Part :=
  { id := 1, full_name := "P1", description := "", category_id := none
    pricing := { overall_min := none, overall_max := none } }

/-- Example external stock location. -/
def locExt : StockLocation := { id := 9, external := true }

/-- Example in-stock item of part 1 sitting at the external location 9. -/
def itemExt : StockItem :=
  { part_id := 1, quantity := 5, purchase_price := none
    in_stock := true, location := some 9 }

/-- Database holding part 1 with five units at an external location. -/
def dbExt : DB :=
  { parts := [partPlain], categories := [], locations := [locExt]
    items := [itemExt]
    part_descendants := fun _ => []
    category_descendants := fun _ => []
    location_descendants := fun _ => [] }

/-- A keyword bag supplying only the (correctly spelled) caller option
`exclude_external=True`. -/
def kwExt : Kwargs :=
  { user := none, part := none, category := none, location := none
    bool_opts := [("exclude_external", true)] }

/-- The empty keyword bag: every option at its default. -/
def kwEmpty : Kwargs :=
  { user := none, part := none, category := none, location := none
    bool_opts := [] }

/-- Example non-external stock location. -/
def locPlain : StockLocation := { id := 10, external := false }

/-- Example item of part 1 at location 10 that is NOT in stock. -/
def itemNotInStock : StockItem :=
  { part_id := 1, quantity := 5, purchase_price := none
    in_stock := false, location := some 10 }

/-- Database whose only item sits in location 10 but is not in stock. -/
def dbLocNoStock : DB :=
  { parts := [partPlain], categories := [], locations := [locPlain]
    items := [itemNotInStock]
    part_descendants := fun _ => []
    category_descendants := fun _ => []
    location_descendants := fun _ => [] }

/-- A keyword bag supplying only a location filter on location 10. -/
def kwLoc : Kwargs :=
  { user := none, part := none, category := none, location := some 10
    bool_opts := [] }

/-- Example in-stock item of part 1 at location 10. -/
def itemAtLoc : StockItem :=
  { part_id := 1, quantity := 5, purchase_price := none
    in_stock := true, location := some 10 }

/-- Database whose only item is in stock at location 10. -/
def dbLocStock : DB :=
  { parts := [partPlain], categories := [], locations := [locPlain]
    items := [itemAtLoc]
    part_descendants := fun _ => []
    category_descendants := fun _ => []
    location_descendants := fun _ => [] }

/-- Example in-stock item of part 1 with no location and no purchase
price. -/
def itemPlain : StockItem :=
  { part_id := 1, quantity := 5, purchase_price := none
    in_stock := true, location := none }

/-- Database holding part 1 with five unpriced units. -/
def dbPlainStock : DB :=
  { parts := [partPlain], categories := [], locations := []
    items := [itemPlain]
    part_descendants := fun _ => []
    category_descendants := fun _ => []
    location_descendants := fun _ => [] }

/-- The empty database. -/
def dbEmpty : DB :=
  { parts := [], categories := [], locations := [], items := []
    part_descendants := fun _ => []
    category_descendants := fun _ => []
    location_descendants := fun _ => [] }

/-- A keyword bag turning the report artifact off
(`generate_report=False`). -/
def kwNoReport : Kwargs :=
  { user := none, part := none, category := none, location := none
    bool_opts := [("generate_report", false)] }

/-- Example part with ordered base-currency bounds 5 USD and 7 USD. -/
def partOrdered : Part :=
  { id := 1, full_name := "P1", description := "", category_id := none
    pricing := { overall_min := some (Money.mk 5 "USD")
                 overall_max := some (Money.mk 7 "USD") } }

/-- Example in-stock item of part 1: two units bought at 3 USD each. -/
def itemPriced : StockItem :=
  { part_id := 1, quantity := 2, purchase_price := some (Money.mk 3 "USD")
    in_stock := true, location := none }

/-- Database holding part 1 (ordered bounds) and its priced item. -/
def dbOrdered : DB :=
  { parts := [partOrdered], categories := [], locations := []
    items := [itemPriced]
    part_descendants := fun _ => []
    category_descendants := fun _ => []
    location_descendants := fun _ => [] }

/-- The entry set iterated by the code equals the inclusion rule as the
spec words it. -/
theorem includedEntries_eq_spec (db : DB) (target : Part) (ee : Bool) :
    includedEntries db target ee = includedSpec db target ee := by
  cases ee with
  | false => simp [includedEntries, includedSpec, stock_entries]
  | true =>
    simp only [includedEntries, stock_entries, includedSpec, if_true,
      List.filter_filter]
    apply List.filter_congr
    intro i _
    cases h1 : (i.part_id == target.id) <;> cases h2 : i.in_stock <;>
      cases h3 : locationExternal db i.location <;> simp [h1, h2, h3]

/-- First projection of the stocktake loop: the accumulated quantity is the
sum of entry quantities. -/
theorem stocktakeLoop_fst (ctx : Ctx) (pr : Pricing) (l : List StockItem) :
    ∀ (q : ℚ) (cs : ℚ × ℚ),
      (l.foldl (stocktakeLoopStep ctx pr) (q, cs)).1
        = q + (l.map (fun e => e.quantity)).sum := by
  induction l with
  | nil => intro q cs; simp
  | cons e t ih =>
    intro q cs
    simp only [List.foldl_cons, stocktakeLoopStep, List.map_cons,
      List.sum_cons]
    rw [ih]
    ring

/-- Second projection of the stocktake loop: the cost pair is the fold of
`stocktakeStep` over the entries. -/
theorem stocktakeLoop_snd (ctx : Ctx) (pr : Pricing) (l : List StockItem) :
    ∀ (q : ℚ) (cs : ℚ × ℚ),
      (l.foldl (stocktakeLoopStep ctx pr) (q, cs)).2
        = l.foldl (stocktakeStep ctx pr) cs := by
  induction l with
  | nil => intro q cs; rfl
  | cons e t ih =>
    intro q cs
    simp only [List.foldl_cons, stocktakeLoopStep]
    rw [ih]

/-- The snapshot quantity is the sum over the iterated entry set. -/
theorem perform_quantity (ctx : Ctx) (db : DB) (target : Part)
    (user : Option Nat) (note : String) (ee : Bool) :
    (perform_stocktake ctx db target user note ee).quantity
      = ((includedEntries db target ee).map (fun e => e.quantity)).sum := by
  simp only [perform_stocktake]
  rw [stocktakeLoop_fst]
  ring

/-- The snapshot item count is the length of the iterated entry set. -/
theorem perform_item_count (ctx : Ctx) (db : DB) (target : Part)
    (user : Option Nat) (note : String) (ee : Bool) :
    (perform_stocktake ctx db target user note ee).item_count
      = (includedEntries db target ee).length := rfl

/-- The snapshot cost pair is the fold of `stocktakeStep` over the iterated
entry set. -/
theorem perform_costs (ctx : Ctx) (db : DB) (target : Part)
    (user : Option Nat) (note : String) (ee : Bool) :
    ((perform_stocktake ctx db target user note ee).cost_min,
      (perform_stocktake ctx db target user note ee).cost_max)
      = (includedEntries db target ee).foldl
          (stocktakeStep ctx target.pricing) (0, 0) := by
  simp only [perform_stocktake]
  rw [← stocktakeLoop_snd ctx target.pricing _ 0 (0, 0)]

/-- C1: For every part, requester and value of the exclude-external flag,
the snapshot returned by `perform_stocktake` has `quantity` equal to the sum
of quantities over exactly the included stock entries (in-stock, non-variant,
minus external-location entries when requested) and `item_count` equal to
the number of those entries. -/
theorem c1_snapshot_totals (ctx : Ctx) (db : DB) (target : Part)
    (user : Option Nat) (note : String) (ee : Bool) :
    (perform_stocktake ctx db target user note ee).quantity
        = ((includedSpec db target ee).map (fun e => e.quantity)).sum
      ∧ (perform_stocktake ctx db target user note ee).item_count
        = (includedSpec db target ee).length := by
  rw [← includedEntries_eq_spec]
  exact ⟨perform_quantity ctx db target user note ee,
    perform_item_count ctx db target user note ee⟩

/-- One loop iteration adds exactly the per-entry contribution to each cost
accumulator. -/
theorem stocktakeStep_eq (ctx : Ctx) (pr : Pricing) (acc : ℚ × ℚ)
    (e : StockItem) :
    stocktakeStep ctx pr acc e
      = (acc.1 + (entryContribution ctx pr e).1,
         acc.2 + (entryContribution ctx pr e).2) := by
  unfold stocktakeStep entryContribution
  cases purchaseContribution ctx e with
  | some v => rfl
  | none =>
    simp only
    generalize moneyOr pr.overall_min pr.overall_max = bmin
    generalize moneyOr pr.overall_max pr.overall_min = bmax
    cases bmin with
    | none => cases bmax <;> split <;> simp
    | some mn =>
      cases bmax with
      | none => split <;> simp
      | some mx =>
        split
        · rcases hc1 : convert_money ctx mn with _ | vmin
          · simp [hc1]
          · rcases hc2 : convert_money ctx mx with _ | vmax
            · simp [hc1, hc2]
            · simp [hc1, hc2]
        · simp

/-- Folding the cost loop equals adding the sum of per-entry contributions
to each accumulator. -/
theorem foldl_step_sum (ctx : Ctx) (pr : Pricing) (l : List StockItem) :
    ∀ (cs : ℚ × ℚ),
      l.foldl (stocktakeStep ctx pr) cs
        = (cs.1 + (l.map (fun e => (entryContribution ctx pr e).1)).sum,
           cs.2 + (l.map (fun e => (entryContribution ctx pr e).2)).sum) := by
  induction l with
  | nil => intro cs; simp
  | cons e t ih =>
    intro cs
    simp only [List.foldl_cons, List.map_cons, List.sum_cons]
    rw [stocktakeStep_eq, ih]
    simp only [Prod.mk.injEq]
    constructor <;> ring

/-- C2 counterexample: an entry carrying a zero purchase price.  The price
converts to the base currency (same currency, value 0), so the claim
demands a contribution of 0 to both accumulators; the code instead treats
the zero price as falsy (`if entry.purchase_price:`) and falls back to the
aggregate pricing, yielding cost bounds 5 and 7. -/
theorem c2_counterexample :
    convert_money ctxUSD (Money.mk 0 "USD") = some 0
      ∧ (perform_stocktake ctxUSD dbZeroPP partZeroPP none "" false).cost_min
          = 5
      ∧ (perform_stocktake ctxUSD dbZeroPP partZeroPP none "" false).cost_max
          = 7 := by
  refine ⟨rfl, ?_, ?_⟩ <;>
    norm_num [perform_stocktake, includedEntries, stock_entries, dbZeroPP,
      itemZeroPP, partZeroPP, ctxUSD, stocktakeLoopStep, stocktakeStep,
      purchaseContribution, convert_money, moneyTruthy, moneyOr, noRates]

/-- C2 (amended): each included entry contributes, in order: a nonzero
purchase price that converts to the base currency contributes its converted
value times quantity to both accumulators; otherwise (price absent, zero, or
conversion failed) the aggregate bounds are used, with a zero-or-absent
bound replaced by the opposite bound, the min bound converted and added
first — so a conversion failure on the min bound contributes zero to both
accumulators, while a failure on the max bound alone still leaves the min
contribution in place; no error is raised. -/
theorem c2_cost_resolution (ctx : Ctx) (db : DB) (target : Part)
    (user : Option Nat) (note : String) (ee : Bool) :
    (perform_stocktake ctx db target user note ee).cost_min
        = ((includedEntries db target ee).map
            (fun e => (entryContribution ctx target.pricing e).1)).sum
      ∧ (perform_stocktake ctx db target user note ee).cost_max
        = ((includedEntries db target ee).map
            (fun e => (entryContribution ctx target.pricing e).2)).sum := by
  have h := perform_costs ctx db target user note ee
  rw [foldl_step_sum] at h
  simp only [Prod.mk.injEq] at h
  obtain ⟨h1, h2⟩ := h
  constructor
  · rw [h1]; simp
  · rw [h2]; simp

/-- Every entry iterated by `perform_stocktake` is one of the database's
stock items. -/
theorem mem_includedEntries (db : DB) (target : Part) (ee : Bool)
    (e : StockItem) (h : e ∈ includedEntries db target ee) : e ∈ db.items := by
  unfold includedEntries stock_entries at h
  cases ee <;> simp_all [List.mem_filter]

/-- One loop iteration preserves `cost_min ≤ cost_max` when the aggregate
bounds are in the base currency and ordered and the entry quantity is
nonnegative. -/
theorem stocktakeStep_mono (ctx : Ctx) (pr : Pricing)
    (hbase : boundsInBase ctx pr = true) (hord : boundsOrdered pr = true)
    (e : StockItem) (hq : 0 ≤ e.quantity) (acc : ℚ × ℚ)
    (h : acc.1 ≤ acc.2) :
    (stocktakeStep ctx pr acc e).1 ≤ (stocktakeStep ctx pr acc e).2 := by
  unfold stocktakeStep
  cases purchaseContribution ctx e with
  | some v => exact add_le_add_right h v
  | none =>
    simp only
    rcases hmn : pr.overall_min with _ | mn <;>
      rcases hmx : pr.overall_max with _ | mx
    · simp [moneyOr, moneyTruthy, h]
    · simp only [boundsInBase, hmn, hmx, Option.all_some, Option.all_none,
        Bool.true_and, beq_iff_eq] at hbase
      by_cases hz : mx.amount = 0
      · simp [moneyOr, moneyTruthy, hz, h]
      · simp [moneyOr, moneyTruthy, hz, convert_money, hbase]
        exact h
    · simp only [boundsInBase, hmn, hmx, Option.all_some, Option.all_none,
        Bool.and_true, beq_iff_eq] at hbase
      by_cases hz : mn.amount = 0
      · simp [moneyOr, moneyTruthy, hz, h]
      · simp [moneyOr, moneyTruthy, hz, convert_money, hbase]
        exact h
    · simp only [boundsInBase, hmn, hmx, Option.all_some, beq_iff_eq,
        Bool.and_eq_true] at hbase
      by_cases hzn : mn.amount = 0 <;> by_cases hzx : mx.amount = 0
      · simp [moneyOr, moneyTruthy, hzn, hzx, h]
      · simp [moneyOr, moneyTruthy, hzn, hzx, convert_money, hbase]
        exact h
      · simp [moneyOr, moneyTruthy, hzn, hzx, convert_money, hbase]
        exact h
      · have hb1 : (mn.amount == 0) = false := beq_eq_false_iff_ne.mpr hzn
        have hb2 : (mx.amount == 0) = false := beq_eq_false_iff_ne.mpr hzx
        have hle : mn.amount ≤ mx.amount := by
          simp only [boundsOrdered, hmn, hmx, hb1, hb2, Bool.false_or,
            decide_eq_true_eq] at hord
          exact hord
        simp [moneyOr, moneyTruthy, hzn, hzx, convert_money, hbase]
        exact add_le_add h (mul_le_mul_of_nonneg_right hle hq)

/-- The cost fold preserves `cost_min ≤ cost_max` under the same
hypotheses. -/
theorem foldl_step_mono (ctx : Ctx) (pr : Pricing)
    (hbase : boundsInBase ctx pr = true) (hord : boundsOrdered pr = true)
    (l : List StockItem) :
    ∀ acc : ℚ × ℚ, (∀ e ∈ l, 0 ≤ e.quantity) → acc.1 ≤ acc.2 →
      (l.foldl (stocktakeStep ctx pr) acc).1
        ≤ (l.foldl (stocktakeStep ctx pr) acc).2 := by
  induction l with
  | nil => intro acc _ h; simpa using h
  | cons e t ih =>
    intro acc hqs h
    simp only [List.foldl_cons]
    refine ih _ (fun x hx => hqs x (List.mem_cons_of_mem e hx)) ?_
    exact stocktakeStep_mono ctx pr hbase hord e
      (hqs e (List.mem_cons_self e t)) acc h

/-- C3 counterexample: a part whose min bound (5 USD) converts while its max
bound (7 EUR) hits a missing rate.  The min accumulator receives 5, the max
accumulator nothing, so `cost_min ≤ cost_max` fails on this snapshot. -/
theorem c3_counterexample :
    ¬ ((perform_stocktake ctxUSD dbMixedCur partMixedCur none "" false).cost_min
        ≤ (perform_stocktake ctxUSD dbMixedCur partMixedCur none ""
            false).cost_max) := by
  have h1 : convert_money ctxUSD (Money.mk 5 "USD") = some 5 := rfl
  have h2 : convert_money ctxUSD (Money.mk 7 "EUR") = none := rfl
  norm_num [perform_stocktake, includedEntries, stock_entries, dbMixedCur,
    itemNoPP, partMixedCur, stocktakeLoopStep, stocktakeStep,
    purchaseContribution, moneyTruthy, moneyOr, h1, h2]

/-- C3 (amended): `cost_min ≤ cost_max` holds for every produced snapshot
provided every item quantity is nonnegative, both aggregate pricing bounds
are denominated in the base currency (so neither conversion can fail
asymmetrically), and the bounds are ordered whenever both are nonzero.  In
general a missing rate on the max bound after a successful min conversion
breaks the invariant. -/
theorem c3_cost_order (ctx : Ctx) (db : DB) (target : Part)
    (user : Option Nat) (note : String) (ee : Bool)
    (hq : quantitiesNonneg db = true)
    (hbase : boundsInBase ctx target.pricing = true)
    (hord : boundsOrdered target.pricing = true) :
    (perform_stocktake ctx db target user note ee).cost_min
      ≤ (perform_stocktake ctx db target user note ee).cost_max := by
  have hmem : ∀ e ∈ includedEntries db target ee, 0 ≤ e.quantity := by
    intro e he
    have hi : e ∈ db.items := mem_includedEntries db target ee e he
    simp only [quantitiesNonneg, List.all_eq_true, decide_eq_true_eq] at hq
    exact hq e hi
  have hfold := foldl_step_mono ctx target.pricing hbase hord
    (includedEntries db target ee) (0, 0) hmem (le_refl 0)
  have h := perform_costs ctx db target user note ee
  rw [← h] at hfold
  exact hfold

/-- C3 witness data: base-currency bounds 5 ≤ 7, quantity 2 — the amended
invariant applies and gives `cost_min ≤ cost_max` on the snapshot. -/
theorem c3_cost_order_witness :
    (perform_stocktake ctxUSD dbOrdered partOrdered none "" false).cost_min
      ≤ (perform_stocktake ctxUSD dbOrdered partOrdered none ""
          false).cost_max :=
  c3_cost_order ctxUSD dbOrdered partOrdered none "" false (by decide)
    (by decide) (by decide)

/-- C10: in the fallback pricing path the min bound is converted and added
before the max bound; when the part's single included entry has no usable
purchase price, the coalesced min bound converts to `v` and the coalesced
max bound hits a missing rate, the snapshot keeps the min contribution
`v * quantity` while the max accumulator receives nothing. -/
theorem c10_fallback_min_only (ctx : Ctx) (db : DB) (target : Part)
    (user : Option Nat) (note : String) (ee : Bool) (e : StockItem)
    (mn mx : Money) (v : ℚ)
    (hone : includedEntries db target ee = [e])
    (hpc : purchaseContribution ctx e = none)
    (hmin : moneyOr target.pricing.overall_min target.pricing.overall_max
      = some mn)
    (hmax : moneyOr target.pricing.overall_max target.pricing.overall_min
      = some mx)
    (hnz : mn.amount ≠ 0)
    (hcmin : convert_money ctx mn = some v)
    (hcmax : convert_money ctx mx = none) :
    (perform_stocktake ctx db target user note ee).cost_min = v * e.quantity
      ∧ (perform_stocktake ctx db target user note ee).cost_max = 0 := by
  have h := perform_costs ctx db target user note ee
  rw [hone] at h
  simp only [List.foldl_cons, List.foldl_nil] at h
  unfold stocktakeStep at h
  have htr : moneyTruthy (some mn) = true := by simp [moneyTruthy, hnz]
  simp only [hpc, hmin, hmax, htr, Bool.true_or, if_true, hcmin, hcmax] at h
  simp only [Prod.mk.injEq] at h
  obtain ⟨h1, h2⟩ := h
  constructor
  · rw [h1]; ring
  · exact h2

/-- C10 witness: part with bounds 5 USD / 7 EUR, one priceless entry of
quantity 1, no EUR rate registered: `cost_min` keeps 5 · 1 while `cost_max`
stays 0. -/
theorem c10_fallback_min_only_witness :
    (perform_stocktake ctxUSD dbMixedCur partMixedCur none "" false).cost_min
        = 5 * itemNoPP.quantity
      ∧ (perform_stocktake ctxUSD dbMixedCur partMixedCur none ""
          false).cost_max = 0 :=
  c10_fallback_min_only ctxUSD dbMixedCur partMixedCur none "" false itemNoPP
    (Money.mk 5 "USD") (Money.mk 7 "EUR") 5 rfl rfl rfl rfl (by norm_num)
    rfl rfl

/-- Generalised characterisation of the per-part report loop: folding from
any accumulator appends exactly the nonzero-quantity stocktakes and their
rows and counts them. -/
theorem reportAccum_go (ctx : Ctx) (db : DB) (user : Option Nat) (ee : Bool)
    (ps : List Part) :
    ∀ (n : Nat) (insts : List PartStocktake) (rows : List Row),
      ps.foldl (reportStep ctx db user ee) (n, insts, rows)
        = (n + (includedPairs ctx db user ee ps).length,
           insts ++ (includedPairs ctx db user ee ps).map (fun pr => pr.2),
           rows ++ (includedPairs ctx db user ee ps).map
             (fun pr => rowOf db pr.1 pr.2)) := by
  induction ps with
  | nil => intro n insts rows; simp [includedPairs]
  | cons p t ih =>
    intro n insts rows
    simp only [List.foldl_cons]
    by_cases hz : (perform_stocktake ctx db p user "" ee).quantity = 0
    · have hstep : reportStep ctx db user ee (n, insts, rows) p
          = (n, insts, rows) := by
        simp [reportStep, hz]
      have hinc : includedPairs ctx db user ee (p :: t)
          = includedPairs ctx db user ee t := by
        simp [includedPairs, hz]
      rw [hstep, ih, hinc]
    · have hstep : reportStep ctx db user ee (n, insts, rows) p
          = (n + 1, insts ++ [perform_stocktake ctx db p user "" ee],
             rows ++ [rowOf db p (perform_stocktake ctx db p user "" ee)]) := by
        simp [reportStep, hz]
      have hinc : includedPairs ctx db user ee (p :: t)
          = (p, perform_stocktake ctx db p user "" ee)
              :: includedPairs ctx db user ee t := by
        simp [includedPairs, hz]
      rw [hstep, ih, hinc]
      simp only [List.length_cons, List.map_cons, List.append_assoc,
        List.singleton_append, Prod.mk.injEq, and_true, true_and]
      omega

/-- The report loop from the initial accumulator yields exactly the kept
pairs: their number, their stocktakes, their rows. -/
theorem reportAccum_eq (ctx : Ctx) (db : DB) (user : Option Nat) (ee : Bool)
    (ps : List Part) :
    reportAccum ctx db user ee ps
      = ((includedPairs ctx db user ee ps).length,
         (includedPairs ctx db user ee ps).map (fun pr => pr.2),
         (includedPairs ctx db user ee ps).map
           (fun pr => rowOf db pr.1 pr.2)) := by
  unfold reportAccum
  rw [reportAccum_go]
  simp

/-- The dataset rows of a report run are exactly the rows of the kept
(nonzero-quantity) pairs. -/
theorem generate_rows_eq (ctx : Ctx) (db : DB) (kw : Kwargs) :
    (generate_stocktake_report ctx db kw).rows
      = (includedPairs ctx db kw.user (effectiveExcludeExternal ctx kw)
          (stocktakeParts db kw (effectiveExcludeExternal ctx kw))).map
            (fun pr => rowOf db pr.1 pr.2) := by
  simp only [generate_stocktake_report]
  split
  next hzero =>
    have : stocktakeParts db kw (effectiveExcludeExternal ctx kw) = [] :=
      List.eq_nil_of_length_eq_zero (by simpa using hzero)
    simp [this, includedPairs]
  next => rw [reportAccum_eq]

/-- The bulk-insert call of a report run: absent on early exit or when
`update_parts` is false, otherwise exactly the kept stocktakes with batch
size 500. -/
theorem generate_bulk_eq (ctx : Ctx) (db : DB) (kw : Kwargs) :
    (generate_stocktake_report ctx db kw).bulk_inserted
      = (if (stocktakeParts db kw (effectiveExcludeExternal ctx kw)).length
            == 0 then none
         else if kw.getBool "update_parts" true then
           some ((includedPairs ctx db kw.user
               (effectiveExcludeExternal ctx kw)
               (stocktakeParts db kw (effectiveExcludeExternal ctx kw))).map
                 (fun pr => pr.2), 500)
         else none) := by
  simp only [generate_stocktake_report]
  split
  next => rfl
  next => simp [reportAccum_eq]

/-- The report artifact of a run: absent on early exit or when
`generate_report` is false, otherwise carries the dated filename, the count
of kept parts, and the requesting user. -/
theorem generate_report_eq (ctx : Ctx) (db : DB) (kw : Kwargs) :
    (generate_stocktake_report ctx db kw).report
      = (if (stocktakeParts db kw (effectiveExcludeExternal ctx kw)).length
            == 0 then none
         else if kw.getBool "generate_report" true then
           some { filename := "InvenTree_Stocktake_" ++ ctx.today ++ ".csv"
                  part_count := (includedPairs ctx db kw.user
                    (effectiveExcludeExternal ctx kw)
                    (stocktakeParts db kw
                      (effectiveExcludeExternal ctx kw))).length
                  user := kw.user }
         else none) := by
  simp only [generate_stocktake_report]
  split
  next => rfl
  next => simp [reportAccum_eq]

/-- The notification targets of a run: the requesting user exactly when a
report artifact was generated and a user was supplied. -/
theorem generate_notified_eq (ctx : Ctx) (db : DB) (kw : Kwargs) :
    (generate_stocktake_report ctx db kw).notified
      = (if (stocktakeParts db kw (effectiveExcludeExternal ctx kw)).length
            == 0 then []
         else if kw.getBool "generate_report" true then
           (match kw.user with
            | some u => [u]
            | none => [])
         else []) := by
  simp only [generate_stocktake_report]
  split
  next => rfl
  next => rfl

/-- Collapsing a projected part-id list: membership in the deduplicated
part-id column equals an existence check over the item list. -/
theorem contains_dedup_part (l : List StockItem) (pid : Nat) :
    ((l.map (fun i => i.part_id)).dedup.contains pid)
      = l.any (fun i => i.part_id == pid) := by
  rw [Bool.eq_iff_iff]
  simp [List.any_eq_true, List.mem_dedup, List.mem_map]

/-- Membership in the conditionally external-filtered item list. -/
theorem mem_extFiltered (db : DB) (ee : Bool) (l : List StockItem)
    (i : StockItem) :
    (i ∈ (if ee then l.filter (fun x => !(locationExternal db x.location))
          else l))
      ↔ (i ∈ l ∧ (!ee || !(locationExternal db i.location)) = true) := by
  cases ee <;> simp [List.mem_filter]

/-- C5 counterexample: the only stock item in the location subtree is not
in stock, yet the code's part set still contains its owner (the location
filter never restricts to in-stock items), while the spec's set is empty;
the run then even produces an artifact with `part_count = 0` instead of
exiting early. -/
theorem c5_counterexample :
    stocktakeParts dbLocNoStock kwLoc false = [partPlain]
      ∧ locationPartsSpec dbLocNoStock 10 false = []
      ∧ (generate_stocktake_report ctxUSD dbLocNoStock kwLoc).report
          = some { filename := "InvenTree_Stocktake_2024-01-01.csv"
                   part_count := 0, user := none } := by
  refine ⟨rfl, rfl, ?_⟩
  rw [generate_report_eq]
  norm_num [includedPairs, stocktakeParts, effectiveExcludeExternal,
    Kwargs.getBool, kwLoc, ctxUSD, dbLocNoStock, partPlain, itemNotInStock,
    locPlain, perform_stocktake, includedEntries, stock_entries,
    locationExternal, stocktakeLoopStep, descendantsWithSelf]
  rfl

/-- C5 (amended): with only a location filter supplied, the part set is
exactly the parts owning any stock item (in stock or not) located in the
location's subtree (the location itself included), minus items at external
locations when the effective exclude-external flag is set. -/
theorem c5_location_parts (db : DB) (kw : Kwargs) (ee : Bool) (lid : Nat)
    (hp : kw.part = none) (hc : kw.category = none)
    (hl : kw.location = some lid) :
    stocktakeParts db kw ee = locationPartsAmended db lid ee := by
  unfold stocktakeParts locationPartsAmended
  rw [hp, hc, hl]
  simp only
  apply List.filter_congr
  intro p _
  rw [contains_dedup_part, Bool.eq_iff_iff]
  simp only [List.any_eq_true]
  constructor
  · rintro ⟨i, hi, hpid⟩
    rw [mem_extFiltered] at hi
    obtain ⟨hi0, hext⟩ := hi
    obtain ⟨hidb, hloc⟩ := List.mem_filter.mp hi0
    refine ⟨i, hidb, ?_⟩
    rw [Bool.and_eq_true, Bool.and_eq_true]
    exact ⟨⟨hpid, hloc⟩, hext⟩
  · rintro ⟨i, hidb, hpred⟩
    rw [Bool.and_eq_true, Bool.and_eq_true] at hpred
    obtain ⟨⟨h1, h2⟩, h3⟩ := hpred
    refine ⟨i, ?_, h1⟩
    rw [mem_extFiltered]
    exact ⟨List.mem_filter.mpr ⟨hidb, h2⟩, h3⟩

/-- C5 witness: one in-stock item at location 10 — the amended
characterisation applies and both sides equal `[partPlain]`. -/
theorem c5_location_parts_witness :
    stocktakeParts dbLocStock kwLoc false
      = locationPartsAmended dbLocStock 10 false :=
  c5_location_parts dbLocStock kwLoc false 10 rfl rfl rfl

/-- C4: the caller-supplied `exclude_external=True` option is ignored.  The
caller passes it (first conjunct), yet the resolved flag is the setting's
default `false` (second conjunct, via the misspelled lookup key), so the
report still counts the five units at the external location (third
conjunct); flipping the global setting — not the option — removes them
(fourth conjunct), contradicting the function's own docstring. -/
theorem c4_option_ignored :
    Kwargs.getBool kwExt "exclude_external" false = true
      ∧ effectiveExcludeExternal ctxUSD kwExt = false
      ∧ ((generate_stocktake_report ctxUSD dbExt kwExt).rows.map
          (fun r => r.quantity)) = [5]
      ∧ (generate_stocktake_report ctxUSDext dbExt kwExt).rows = [] := by
  have hs : ¬ ("exclude_external" = "exclude_exernal") := by decide
  refine ⟨rfl, rfl, ?_, ?_⟩
  · rw [generate_rows_eq]
    norm_num [includedPairs, stocktakeParts, effectiveExcludeExternal,
      Kwargs.getBool, kwExt, ctxUSD, dbExt, partPlain, itemExt, locExt,
      perform_stocktake, includedEntries, stock_entries, locationExternal,
      stocktakeLoopStep, stocktakeStep, purchaseContribution, moneyTruthy,
      moneyOr, rowOf, hs]
  · rw [generate_rows_eq]
    norm_num [includedPairs, stocktakeParts, effectiveExcludeExternal,
      Kwargs.getBool, kwExt, ctxUSDext, ctxUSD, dbExt, partPlain, itemExt,
      locExt, perform_stocktake, includedEntries, stock_entries,
      locationExternal, stocktakeLoopStep, hs]

/-- C6 counterexample: a run on one part with stock produces the artifact
`InvenTree_Stocktake_2024-01-01.csv`, which is not of the claimed form
`Stocktake_<date>.csv` (the generated name carries the `InvenTree_`
prefix). -/
theorem c6_counterexample :
    (generate_stocktake_report ctxUSD dbPlainStock kwEmpty).report
        = some { filename := "InvenTree_Stocktake_2024-01-01.csv"
                 part_count := 1, user := none }
      ∧ "InvenTree_Stocktake_2024-01-01.csv"
          ≠ "Stocktake_" ++ "2024-01-01" ++ ".csv" := by
  constructor
  · rw [generate_report_eq]
    norm_num [includedPairs, stocktakeParts, effectiveExcludeExternal,
      Kwargs.getBool, kwEmpty, ctxUSD, dbPlainStock, partPlain, itemPlain,
      perform_stocktake, includedEntries, stock_entries, locationExternal,
      stocktakeLoopStep, stocktakeStep, purchaseContribution, moneyTruthy,
      moneyOr]
    rfl
  · decide

/-- C6 (amended): every artifact produced by a report run carries the
filename `InvenTree_Stocktake_<ISO date>.csv`, the date taken once from the
run context. -/
theorem c6_filename (ctx : Ctx) (db : DB) (kw : Kwargs) (r : ReportInstance)
    (h : (generate_stocktake_report ctx db kw).report = some r) :
    r.filename = "InvenTree_Stocktake_" ++ ctx.today ++ ".csv" := by
  rw [generate_report_eq] at h
  split at h
  next => exact absurd h (by simp)
  next =>
    split at h
    next =>
      have := (Option.some.injEq _ _).mp h
      rw [← this]
    next => exact absurd h (by simp)

/-- C6 witness: on the concrete plain-stock run the artifact exists and the
amended filename law applies to it. -/
theorem c6_filename_witness :
    ({ filename := "InvenTree_Stocktake_2024-01-01.csv", part_count := 1
       user := none } : ReportInstance).filename
      = "InvenTree_Stocktake_" ++ ctxUSD.today ++ ".csv" :=
  c6_filename ctxUSD dbPlainStock kwEmpty _ (by
    rw [generate_report_eq]
    norm_num [includedPairs, stocktakeParts, effectiveExcludeExternal,
      Kwargs.getBool, kwEmpty, ctxUSD, dbPlainStock, partPlain, itemPlain,
      perform_stocktake, includedEntries, stock_entries, locationExternal,
      stocktakeLoopStep, stocktakeStep, purchaseContribution, moneyTruthy,
      moneyOr]
    rfl)

/-- C7: zero-quantity snapshots are invisible: the dataset rows and the
bulk-insert list are built from exactly the nonzero-quantity pairs (the
`includedPairs` filter), every kept pair has nonzero quantity, and the
artifact's `part_count` is the number of kept pairs. -/
theorem c7_zero_quantity_skipped (ctx : Ctx) (db : DB) (kw : Kwargs) :
    (generate_stocktake_report ctx db kw).rows
        = (includedPairs ctx db kw.user (effectiveExcludeExternal ctx kw)
            (stocktakeParts db kw (effectiveExcludeExternal ctx kw))).map
              (fun pr => rowOf db pr.1 pr.2)
      ∧ (includedPairs ctx db kw.user (effectiveExcludeExternal ctx kw)
          (stocktakeParts db kw (effectiveExcludeExternal ctx kw))).all
            (fun pr => !(pr.2.quantity == 0)) = true
      ∧ (generate_stocktake_report ctx db kw).bulk_inserted
        = (if (stocktakeParts db kw (effectiveExcludeExternal ctx kw)).length
              == 0 then none
           else if kw.getBool "update_parts" true then
             some ((includedPairs ctx db kw.user
                 (effectiveExcludeExternal ctx kw)
                 (stocktakeParts db kw
                   (effectiveExcludeExternal ctx kw))).map (fun pr => pr.2),
               500)
           else none)
      ∧ (generate_stocktake_report ctx db kw).report
        = (if (stocktakeParts db kw (effectiveExcludeExternal ctx kw)).length
              == 0 then none
           else if kw.getBool "generate_report" true then
             some { filename := "InvenTree_Stocktake_" ++ ctx.today ++ ".csv"
                    part_count := (includedPairs ctx db kw.user
                      (effectiveExcludeExternal ctx kw)
                      (stocktakeParts db kw
                        (effectiveExcludeExternal ctx kw))).length
                    user := kw.user }
           else none) := by
  refine ⟨generate_rows_eq ctx db kw, ?_, generate_bulk_eq ctx db kw,
    generate_report_eq ctx db kw⟩
  rw [List.all_eq_true]
  intro pr hpr
  exact (List.mem_filter.mp hpr).2

/-- C8: when the filters leave no part, the run performs nothing: no rows,
no artifact, no notification, no bulk insert (the Python function returns
`None` on this early exit). -/
theorem c8_empty_noop (ctx : Ctx) (db : DB) (kw : Kwargs)
    (h : stocktakeParts db kw (effectiveExcludeExternal ctx kw) = []) :
    generate_stocktake_report ctx db kw
      = { rows := [], report := none, notified := [],
          bulk_inserted := none } := by
  simp only [generate_stocktake_report]
  rw [h]
  rfl

/-- C8 witness: the empty database filters to no parts and the run is a
no-op. -/
theorem c8_empty_noop_witness :
    generate_stocktake_report ctxUSD dbEmpty kwEmpty
      = { rows := [], report := none, notified := [],
          bulk_inserted := none } :=
  c8_empty_noop ctxUSD dbEmpty kwEmpty rfl

/-- C9: with `generate_report=False` and `update_parts=True` on a non-empty
part set, the kept snapshots are passed to one bulk insert with batch size
500 while no artifact is created and nobody is notified. -/
theorem c9_bulk_only (ctx : Ctx) (db : DB) (kw : Kwargs)
    (hg : kw.getBool "generate_report" true = false)
    (hu : kw.getBool "update_parts" true = true)
    (hne : stocktakeParts db kw (effectiveExcludeExternal ctx kw) ≠ []) :
    (generate_stocktake_report ctx db kw).bulk_inserted
        = some ((includedPairs ctx db kw.user
            (effectiveExcludeExternal ctx kw)
            (stocktakeParts db kw (effectiveExcludeExternal ctx kw))).map
              (fun pr => pr.2), 500)
      ∧ (generate_stocktake_report ctx db kw).report = none
      ∧ (generate_stocktake_report ctx db kw).notified = [] := by
  have hlen : ((stocktakeParts db kw
      (effectiveExcludeExternal ctx kw)).length == 0) = false := by
    simpa using hne
  refine ⟨?_, ?_, ?_⟩
  · rw [generate_bulk_eq, hlen, hu]
    rfl
  · rw [generate_report_eq, hlen, hg]
    rfl
  · rw [generate_notified_eq, hlen, hg]
    rfl

/-- C9 witness: one part with five unpriced units, `generate_report=False`:
its snapshot is bulk-inserted in one batch of size 500, with no artifact and
no notification. -/
theorem c9_bulk_only_witness :
    (generate_stocktake_report ctxUSD dbPlainStock kwNoReport).bulk_inserted
        = some ((includedPairs ctxUSD dbPlainStock none false
            (stocktakeParts dbPlainStock kwNoReport false)).map
              (fun pr => pr.2), 500)
      ∧ (generate_stocktake_report ctxUSD dbPlainStock kwNoReport).report
          = none
      ∧ (generate_stocktake_report ctxUSD dbPlainStock kwNoReport).notified
          = [] :=
  c9_bulk_only ctxUSD dbPlainStock kwNoReport rfl rfl (by
    have hred : stocktakeParts dbPlainStock kwNoReport
        (effectiveExcludeExternal ctxUSD kwNoReport) = [partPlain] := rfl
    rw [hred]
    simp)

end Stocktake
